import Mathlib

/-!
Verification development for the battlezone tank-combat game.

The TypeScript sources are shallowly embedded: class fields become structure
fields, mutating methods become state-transition functions, machine `number`
values become exact rationals/integers (the code only ever compares distances,
so `Math.sqrt d < c` guards are embedded as the equivalent `d < c ^ 2` guards
on squared distances), and external engine state (the Rapier rigid-body
world) is passed explicitly: a map from body handles to their transforms,
`none` marking a handle that has been removed engine-side (reading such a
handle throws in the source and is caught/filtered).
-/

namespace BZ

/-- A 3D vector with exact rational coordinates (embeds `THREE.Vector3`). -/
structure Vec3 where
  x : ℚ
  y : ℚ
  z : ℚ
deriving DecidableEq, Repr

/-- A quaternion with exact rational coordinates (embeds `THREE.Quaternion`). -/
structure Quat where
  x : ℚ
  y : ℚ
  z : ℚ
  w : ℚ
deriving DecidableEq, Repr

/-- Squared Euclidean distance between two points.  The source computes
`Math.sqrt` of this and compares against a constant `c`; we compare the
square against `c ^ 2`, which is equivalent for nonnegative `c`. -/
def sqDist (a b : Vec3) : ℚ :=
  (a.x - b.x) ^ 2 + (a.y - b.y) ^ 2 + (a.z - b.z) ^ 2

/-- Squared distance from the arena origin (the square of the source's
`Math.sqrt (x*x + y*y + z*z)`). -/
def sqNormV (p : Vec3) : ℚ :=
  p.x ^ 2 + p.y ^ 2 + p.z ^ 2

/-! ### PhysicsWorld (src/src/physics.ts, `PhysicsWorld` class)

`PhysicsWorld.bodies` is an array of `PhysicsBody` objects, each pairing a
Rapier rigid-body handle with a render mesh.  `update` steps the engine,
filters out bodies whose handle no longer resolves (reading
`body.translation()` throws), and copies the handle's translation/rotation
into the mesh.  The engine state after `world.step()` is passed in as
`post : ℕ → Option (Vec3 × Quat)` (handle id ↦ transform, `none` = stale). -/

/-- Embeds `PhysicsBody` (src/src/config.ts second revision): one rigid-body
handle (`bodyId`) plus the bound render mesh's transform. -/
structure PhysicsBody where
  bodyId : ℕ
  meshPos : Vec3
  meshQuat : Quat
deriving DecidableEq, Repr

/-- Embeds `PhysicsWorld.update` (src/src/physics.ts lines 22-58) after the
`world.step()` call: keep only bodies whose handle still resolves a
transform, then copy each surviving handle's translation and rotation into
its mesh (`PhysicsBody.getPosition`/`getRotation` return fresh copies of
`body.translation()`/`body.rotation()`). -/
def PhysicsWorld.update (post : ℕ → Option (Vec3 × Quat)) (bodies : List PhysicsBody) :
    List PhysicsBody :=
  (bodies.filter fun pb => (post pb.bodyId).isSome).map fun pb =>
    match post pb.bodyId with
    | some pq => { pb with meshPos := pq.1, meshQuat := pq.2 }
    | none => pb

/-- Embeds `PhysicsWorld.removeBody` (src/src/physics.ts lines 66-72):
`indexOf` returns `-1` iff the body is absent; otherwise `splice(index, 1)`
removes that first occurrence and `world.removeRigidBody` releases the
handle.  The returned `Bool` records whether `world.removeRigidBody` was
invoked. -/
def PhysicsWorld.removeBody {α : Type} [DecidableEq α] (bodies : List α) (b : α) :
    List α × Bool :=
  if b ∈ bodies then (bodies.erase b, true) else (bodies, false)

/-! ### Tank fire cooldown (src/src/tank.ts, `Tank.fire`, lines 131-265)

`fire()` returns immediately when `canFire` is false.  Otherwise it spawns a
projectile (pushed onto `window.gameState.projectiles`, provided the mesh is
attached to a scene and the global physics world / game state exist — all
true throughout a running match, tracked here by `envAttached`), records
`lastFired = Date.now()`, clears `canFire` and schedules a
`setTimeout(() => canFire = true, 500)`.  Deferred callbacks run on the
single JS thread when their due time is reached, modelled by `runTimers`
running before each entry into `fire`. -/

/-- The cooldown-relevant state of a `Tank` plus the projectile count of the
game state it pushes into. -/
structure TankFireState where
  canFire : Bool
  lastFired : ℕ
  /-- Due time of the pending `setTimeout` cooldown reset, if one is armed. -/
  pendingReset : Option ℕ
  /-- `window.gameState.projectiles.length` contribution of this tank. -/
  projectiles : ℕ
  /-- Mesh attached to a scene and `window.physicsWorld`/`window.gameState`
  present (always true during a match). -/
  envAttached : Bool
deriving DecidableEq, Repr

/-- Runs the pending `setTimeout` cooldown-reset callback if its due time has
been reached (single-threaded event-loop semantics). -/
def Tank.runTimers (now : ℕ) (s : TankFireState) : TankFireState :=
  match s.pendingReset with
  | some r => if r ≤ now then { s with canFire := true, pendingReset := none } else s
  | none => s

/-- Embeds the body of `Tank.fire` at wall-clock time `now`: no-op when
cooling down, otherwise spawn one projectile (when the environment is
attached), stamp `lastFired`, clear `canFire` and arm the 500 ms reset. -/
def Tank.fireBody (now : ℕ) (s : TankFireState) : TankFireState :=
  if s.canFire then
    { canFire := false
      lastFired := now
      pendingReset := some (now + 500)
      projectiles := if s.envAttached then s.projectiles + 1 else s.projectiles
      envAttached := s.envAttached }
  else s

/-- A call to `Tank.fire` at time `now`: due timers run first (event loop),
then the method body. -/
def Tank.fire (now : ℕ) (s : TankFireState) : TankFireState :=
  Tank.fireBody now (Tank.runTimers now s)

/-- Modelled from the spec: `Tank.takeDamage` of the current `Tank` revision
(the revision with the `hitpoints` field and the `state : PlayState`
back-reference, referenced by `PlayState` and the current `EnemyTank` but not
present under src/ — src/src/tank.ts holds an older revision without hit
points).  Spec: "`takeDamage(amount)`: decrements hit points, returns whether
still alive", "hit points ≤ 0 after damage ⇒ not alive".  Returns the new
hit-point value and the alive flag. -/
def Tank.takeDamage (hitpoints amount : ℤ) : ℤ × Bool :=
  (hitpoints - amount, decide (0 < hitpoints - amount))

/-! ### Combat / collision resolver (src/src/playState.ts, current revision)

`PlayState` holds the player, the live enemies, the live projectiles, the
score and the game-over flag; render meshes live in `scene` and physics
bodies in `physicsWorld.bodies` (tracked here as lists of ids).  The per-frame
resolver `updateProjectiles` walks the projectile array backwards, removes
out-of-bounds projectiles and otherwise runs `checkProjectileCollisions`. -/

/-- Modelled from the spec: the `ProjectileSource` tag of the current
projectile revision (imported by src/src/playState.ts but the revision of
src/src/projectile.ts declaring it is not under src/).  Spec: "source tag ∈
{PLAYER, ENEMY}". -/
inductive ProjectileSource where
  | PLAYER
  | ENEMY
deriving DecidableEq, Repr

/-- A tank-like combat participant as the resolver sees it: position (of its
physics body), hit points, ids of its physics body and render mesh, and
whether `body`/`mesh` are non-null (the resolver's defensive guards). -/
structure Combatant where
  pos : Vec3
  hp : ℤ
  bodyId : ℕ
  meshId : ℕ
  hasBody : Bool
deriving DecidableEq, Repr

/-- A entry of `PlayState.projectiles` as the resolver sees it.
`isInstance` records whether the entry is an `instanceof Projectile`
(`Tank.fire` of the older revision pushes plain object literals, for which it
is false). -/
structure Proj where
  pos : Vec3
  source : ProjectileSource
  isInstance : Bool
  bodyId : ℕ
  meshId : ℕ
  hasBody : Bool
deriving DecidableEq, Repr

/-- The gameplay state of `PlayState` that the combat resolver reads and
writes. -/
structure PlayStateM where
  player : Combatant
  enemies : List Combatant
  projectiles : List Proj
  score : ℕ
  gameOver : Bool
  /-- Ids of meshes attached to the render scene. -/
  scene : List ℕ
  /-- Ids of bodies registered with `physicsWorld.bodies`. -/
  physics : List ℕ
deriving DecidableEq, Repr

/-- Embeds `PlayState.removeProjectile` minus the `splice` (removal from the
projectile array is handled by the caller's kept-list): detach the mesh from
the scene and unregister/release the physics body.  Erasing an absent id is a
no-op, mirroring the source's `if (projectile.mesh.parent)` /
`if (projectile.body)` guards. -/
def PlayState.removeProjectileEffects (s : PlayStateM) (p : Proj) : PlayStateM :=
  { s with scene := s.scene.erase p.meshId, physics := s.physics.erase p.bodyId }

/-- Embeds `PlayState.handleEnemyHit` (src/src/playState.ts lines 413-441):
apply `takeDamage(10)` to the enemy at index `j`; when it survives it stays
(with its mutated hit points), when destroyed its mesh leaves the scene, its
body leaves the physics world, it is spliced out of `enemies`, and the score
grows by 100.  The explosion effect and score display are render-side. -/
def PlayState.handleEnemyHit (s : PlayStateM) (j : ℕ) : PlayStateM :=
  match s.enemies[j]? with
  | none => s
  | some e =>
    let hpAlive := Tank.takeDamage e.hp 10
    if hpAlive.2 then
      { s with enemies := s.enemies.set j { e with hp := hpAlive.1 } }
    else
      { s with
        scene := s.scene.erase e.meshId
        physics := if e.hasBody then (PhysicsWorld.removeBody s.physics e.bodyId).1 else s.physics
        enemies := s.enemies.eraseIdx j
        score := s.score + 100 }

/-- Embeds `PlayState.handlePlayerHit` (src/src/playState.ts lines 509-559):
apply `takeDamage(10)` to the player; if destroyed, `triggerGameOver` sets the
game-over flag.  Explosion, notifications and camera shake are render-side. -/
def PlayState.handlePlayerHit (s : PlayStateM) : PlayStateM :=
  let hpAlive := Tank.takeDamage s.player.hp 10
  { s with
    player := { s.player with hp := hpAlive.1 }
    gameOver := if hpAlive.2 then s.gameOver else true }

/-- The inner enemy scan of `checkProjectileCollisions`: the `for` loop runs
`j` from `enemies.length - 1` down to `0`, skips enemies with a null
`body`/`mesh`, and breaks on the first enemy within distance 2 of the
projectile.  Returns the index of that enemy; preferring a hit in the tail of
the list realises the descending iteration order. -/
def PlayState.findHitEnemy (pos : Vec3) : List Combatant → Option ℕ
  | [] => none
  | e :: rest =>
    match PlayState.findHitEnemy pos rest with
    | some j => some (j + 1)
    | none => if e.hasBody ∧ sqDist pos e.pos < 2 ^ 2 then some 0 else none

/-- Embeds `PlayState.checkProjectileCollisions` (src/src/playState.ts lines
369-411) for one projectile: returns the new state and whether the entry is
kept in the projectile array (`false` = removed by collision).  Entries that
are not `instanceof Projectile` return immediately.  A PLAYER-sourced
projectile scans the enemies (descending, breaking on the first hit); an
ENEMY-sourced projectile checks only the player. -/
def PlayState.checkProjectileCollisions (s : PlayStateM) (p : Proj) : PlayStateM × Bool :=
  if p.isInstance = false then (s, true)
  else
    match p.source with
    | ProjectileSource.PLAYER =>
      match PlayState.findHitEnemy p.pos s.enemies with
      | some j => (PlayState.removeProjectileEffects (PlayState.handleEnemyHit s j) p, false)
      | none => (s, true)
    | ProjectileSource.ENEMY =>
      if s.player.hasBody = false then (s, true)
      else if sqDist p.pos s.player.pos < 2 ^ 2 then
        (PlayState.removeProjectileEffects (PlayState.handlePlayerHit s) p, false)
      else (s, true)

/-- One iteration of the `updateProjectiles` loop for one projectile entry:
skip entries with null `body`/`mesh`, remove entries farther than 1000 from
the origin without any collision check, otherwise run
`checkProjectileCollisions`. -/
def PlayState.stepProjectile (s : PlayStateM) (p : Proj) : PlayStateM × Bool :=
  if p.hasBody = false then (s, true)
  else if sqNormV p.pos > 1000 ^ 2 then (PlayState.removeProjectileEffects s p, false)
  else PlayState.checkProjectileCollisions s p

/-- The descending `for` loop of `updateProjectiles` over the projectile
array: the last entry is processed first; entries whose step returns `false`
are spliced out, the rest keep their relative order. -/
def PlayState.updateProjectilesGo (s : PlayStateM) : List Proj → PlayStateM × List Proj
  | [] => (s, [])
  | p :: rest =>
    let tail := PlayState.updateProjectilesGo s rest
    let step := PlayState.stepProjectile tail.1 p
    if step.2 then (step.1, p :: tail.2) else (step.1, tail.2)

/-- Embeds `PlayState.updateProjectiles` (src/src/playState.ts lines
348-367). -/
def PlayState.updateProjectiles (s : PlayStateM) : PlayStateM :=
  let r := PlayState.updateProjectilesGo s s.projectiles
  { r.1 with projectiles := r.2 }

/-- Embeds `PlayState.triggerGameOver` (src/src/playState.ts lines 891-952):
the gameplay effect is `this.gameOver = true`; everything else is DOM. -/
def PlayState.triggerGameOver (s : PlayStateM) : PlayStateM :=
  { s with gameOver := true }

/-- Embeds `PlayState.update` (src/src/playState.ts lines 245-273): an
immediate return when the game-over flag is set; otherwise input handling,
the physics step, the player and enemy AI updates (all modelled by the
`external` parameter, which runs first as in the source) followed by
`updateProjectiles`.  Camera and radar updates do not touch the gameplay
state. -/
def PlayState.update (external : PlayStateM → PlayStateM) (s : PlayStateM) : PlayStateM :=
  if s.gameOver then s
  else PlayState.updateProjectiles (external s)

/-- Embeds `PlayState.render` as far as the gameplay state is concerned: it
draws the current scene (and is not gated on the game-over flag). -/
def PlayState.render (s : PlayStateM) : List ℕ :=
  s.scene

/-! ### Enemy fire decision (src/src/enemyTank.ts, current revision,
`EnemyTank.checkAndFireAtPlayer`, lines 536-554)

The decision geometry is exact-real: positions are `THREE.Vector3`s, the
forward vector is `(0,0,1)` rotated by the hull quaternion, and
`THREE.Vector3.angleTo` is `acos(clamp(dot / sqrt(lenSq·lenSq), -1, 1))`
(`Real.arccos` already clamps, and Lean's `x / 0 = 0` convention reproduces
the degenerate-denominator case as `acos 0 = π/2`, the value three.js
returns there). -/

/-- A 3D vector over the reals (embeds `THREE.Vector3` for the AI
geometry). -/
structure Vec3R where
  x : ℝ
  y : ℝ
  z : ℝ

/-- A quaternion over the reals (embeds `THREE.Quaternion` for the AI
geometry). -/
structure QuatR where
  x : ℝ
  y : ℝ
  z : ℝ
  w : ℝ

/-- `THREE.Vector3.sub`: componentwise difference. -/
noncomputable def Vec3R.sub (a b : Vec3R) : Vec3R :=
  ⟨a.x - b.x, a.y - b.y, a.z - b.z⟩

/-- `THREE.Vector3.dot`. -/
noncomputable def Vec3R.dot (a b : Vec3R) : ℝ :=
  a.x * b.x + a.y * b.y + a.z * b.z

/-- `THREE.Vector3.lengthSq`. -/
noncomputable def Vec3R.lengthSq (v : Vec3R) : ℝ :=
  Vec3R.dot v v

/-- `THREE.Vector3.length`. -/
noncomputable def Vec3R.length (v : Vec3R) : ℝ :=
  Real.sqrt v.lengthSq

/-- `THREE.Vector3.distanceTo`. -/
noncomputable def Vec3R.distanceTo (a b : Vec3R) : ℝ :=
  (Vec3R.sub a b).length

/-- `THREE.Vector3.normalize`: divide by the length (`x / 0 = 0` reproduces
three.js's `divideScalar(length || 1)` on the zero vector). -/
noncomputable def Vec3R.normalize (v : Vec3R) : Vec3R :=
  ⟨v.x / v.length, v.y / v.length, v.z / v.length⟩

/-- `THREE.Vector3.applyQuaternion`: `v + 2·w·(q×v) + 2·q×(q×v)` in three.js's
`t = 2(q×v)` form. -/
noncomputable def Vec3R.applyQuaternion (v : Vec3R) (q : QuatR) : Vec3R :=
  let tx := 2 * (q.y * v.z - q.z * v.y)
  let ty := 2 * (q.z * v.x - q.x * v.z)
  let tz := 2 * (q.x * v.y - q.y * v.x)
  ⟨v.x + q.w * tx + q.y * tz - q.z * ty,
   v.y + q.w * ty + q.z * tx - q.x * tz,
   v.z + q.w * tz + q.x * ty - q.y * tx⟩

/-- `THREE.Vector3.angleTo`. -/
noncomputable def Vec3R.angleTo (a b : Vec3R) : ℝ :=
  Real.arccos (Vec3R.dot a b / Real.sqrt (a.lengthSq * b.lengthSq))

/-- `EnemyTank.firingRange` of the current revision. -/
def EnemyTank.firingRange : ℝ := 30

/-- The forward direction of the hull: `(0,0,1)` rotated by
`this.mesh.quaternion`. -/
noncomputable def EnemyTank.forwardOf (meshQuat : QuatR) : Vec3R :=
  Vec3R.applyQuaternion ⟨0, 0, 1⟩ meshQuat

/-- The angular deviation `checkAndFireAtPlayer` computes:
`forward.angleTo(directionToPlayer)` with
`directionToPlayer = (playerPosition - tankPosition).normalize()`. -/
noncomputable def EnemyTank.angleToPlayer (playerPos tankPos : Vec3R) (meshQuat : QuatR) : ℝ :=
  Vec3R.angleTo (EnemyTank.forwardOf meshQuat)
    (Vec3R.normalize (Vec3R.sub playerPos tankPos))

/-- Embeds the fire condition of `EnemyTank.checkAndFireAtPlayer`
(src/src/enemyTank.ts lines 536-554): `this.fire()` is invoked iff
`distanceToPlayer < this.firingRange` and
`Math.abs(angleToPlayer) < Math.PI / 8`. -/
noncomputable def EnemyTank.checkAndFireAtPlayer
    (playerPos tankPos : Vec3R) (meshQuat : QuatR) : Prop :=
  Vec3R.distanceTo playerPos tankPos < EnemyTank.firingRange ∧
  |EnemyTank.angleToPlayer playerPos tankPos meshQuat| < Real.pi / 8

/-! ### Sample data used by the concrete witnesses -/

/-- A sample player (15 HP, as `PlayState.showHealthNotification` assumes). -/
def samplePlayer : Combatant := ⟨⟨0, 0, 0⟩, 15, 1, 2, true⟩

/-- A sample enemy with the 10 HP the current `EnemyTank` constructor sets. -/
def sampleEnemy : Combatant := ⟨⟨5, 0, 0⟩, 10, 3, 4, true⟩

/-- A sample gameplay state: one player, one enemy, empty projectile list. -/
def sampleState : PlayStateM :=
  ⟨samplePlayer, [sampleEnemy], [], 0, false, [2, 4], [1, 3]⟩

/-! ### Helper lemmas about the resolver -/

@[simp]
theorem PlayState.removeProjectileEffects_player (s : PlayStateM) (p : Proj) :
    (PlayState.removeProjectileEffects s p).player = s.player := rfl

@[simp]
theorem PlayState.removeProjectileEffects_enemies (s : PlayStateM) (p : Proj) :
    (PlayState.removeProjectileEffects s p).enemies = s.enemies := rfl

@[simp]
theorem PlayState.removeProjectileEffects_score (s : PlayStateM) (p : Proj) :
    (PlayState.removeProjectileEffects s p).score = s.score := rfl

@[simp]
theorem PlayState.handlePlayerHit_enemies (s : PlayStateM) :
    (PlayState.handlePlayerHit s).enemies = s.enemies := rfl

@[simp]
theorem PlayState.handleEnemyHit_player (s : PlayStateM) (j : ℕ) :
    (PlayState.handleEnemyHit s j).player = s.player := by
  unfold PlayState.handleEnemyHit
  cases h : s.enemies[j]? with
  | none => rfl
  | some e =>
    dsimp only
    split <;> rfl

/-! ### Claim theorems -/

/-- C1: for every body registered with the `PhysicsWorld` whose physics
handle is still valid (resolves a post-step transform), after one call to
`PhysicsWorld.update` the bound render mesh carries exactly the handle's
translation and rotation; conversely every body surviving the update has a
valid handle and a mesh synchronized to it. -/
theorem PhysicsWorld.update_sync_invariant (post : ℕ → Option (Vec3 × Quat))
    (bodies : List PhysicsBody) :
    (∀ pb ∈ bodies, ∀ p q, post pb.bodyId = some (p, q) →
      (⟨pb.bodyId, p, q⟩ : PhysicsBody) ∈ PhysicsWorld.update post bodies) ∧
    (∀ pb' ∈ PhysicsWorld.update post bodies, ∃ p q,
      post pb'.bodyId = some (p, q) ∧ pb'.meshPos = p ∧ pb'.meshQuat = q) := by
  constructor
  · intro pb hpb p q hpost
    unfold PhysicsWorld.update
    refine List.mem_map.mpr ⟨pb, ?_, ?_⟩
    · simp [List.mem_filter, hpb, hpost]
    · simp [hpost]
  · intro pb' hpb'
    unfold PhysicsWorld.update at hpb'
    obtain ⟨a, ha, hfa⟩ := List.mem_map.mp hpb'
    have hsome : (post a.bodyId).isSome = true := by
      simpa using (List.mem_filter.mp ha).2
    obtain ⟨pq, hpq⟩ := Option.isSome_iff_exists.mp hsome
    subst hfa
    refine ⟨pq.1, pq.2, ?_, ?_, ?_⟩ <;> simp [hpq]

/-- Witness for C1: a single tracked body whose handle resolves the
transform `((1,2,3), identity)` ends the update with exactly that mesh
transform. -/
theorem PhysicsWorld.update_sync_invariant_witness :
    (⟨1, ⟨1, 2, 3⟩, ⟨0, 0, 0, 1⟩⟩ : PhysicsBody) ∈
      PhysicsWorld.update
        (fun n => if n = 1 then some (⟨1, 2, 3⟩, ⟨0, 0, 0, 1⟩) else none)
        [⟨1, ⟨0, 0, 0⟩, ⟨0, 0, 0, 1⟩⟩] := by
  exact (PhysicsWorld.update_sync_invariant _ _).1
    ⟨1, ⟨0, 0, 0⟩, ⟨0, 0, 0, 1⟩⟩ (by simp) ⟨1, 2, 3⟩ ⟨0, 0, 0, 1⟩ rfl

/-- C3: `Tank.takeDamage` with a nonnegative amount never increases the hit
points, and it reports not-alive exactly when the post-damage hit points are
≤ 0. -/
theorem Tank.takeDamage_spec (hp amount : ℤ) (h : 0 ≤ amount) :
    (Tank.takeDamage hp amount).1 ≤ hp ∧
    ((Tank.takeDamage hp amount).2 = false ↔ (Tank.takeDamage hp amount).1 ≤ 0) := by
  constructor
  · simp only [Tank.takeDamage]
    omega
  · simp only [Tank.takeDamage, decide_eq_false_iff_not, not_lt]

/-- Witness for C3: 10 damage on a 10-HP tank is fatal and does not increase
the hit points. -/
theorem Tank.takeDamage_spec_witness :
    (0 : ℤ) ≤ 10 ∧ (Tank.takeDamage 10 10).1 ≤ 10 ∧
    ((Tank.takeDamage 10 10).2 = false ↔ (Tank.takeDamage 10 10).1 ≤ 0) := by
  have h := Tank.takeDamage_spec 10 10 (by decide)
  exact ⟨by decide, h.1, h.2⟩

/-- C4: starting from a tank that is ready to fire, `fire()` at time `t0`
spawns exactly one projectile; a second `fire()` at any `t1` inside the
500 ms cooldown window is a no-op with no state change; a third `fire()`
after the cooldown has elapsed spawns a second projectile. -/
theorem Tank.fire_cooldown (s : TankFireState) (t0 t1 t2 : ℕ)
    (hc : s.canFire = true) (hp : s.pendingReset = none) (he : s.envAttached = true)
    (h1 : t1 < t0 + 500) (h2 : t0 + 500 ≤ t2) :
    (Tank.fire t0 s).projectiles = s.projectiles + 1 ∧
    Tank.fire t1 (Tank.fire t0 s) = Tank.fire t0 s ∧
    (Tank.fire t2 (Tank.fire t1 (Tank.fire t0 s))).projectiles = s.projectiles + 2 := by
  have e1 : Tank.fire t0 s =
      { canFire := false, lastFired := t0, pendingReset := some (t0 + 500),
        projectiles := s.projectiles + 1, envAttached := true } := by
    simp [Tank.fire, Tank.runTimers, Tank.fireBody, hp, hc, he]
  have e2 : Tank.fire t1 (Tank.fire t0 s) = Tank.fire t0 s := by
    rw [e1]
    simp [Tank.fire, Tank.runTimers, Tank.fireBody, show ¬ (t0 + 500 ≤ t1) by omega]
  have e3 : Tank.fire t2 (Tank.fire t0 s) =
      { canFire := false, lastFired := t2, pendingReset := some (t2 + 500),
        projectiles := s.projectiles + 2, envAttached := true } := by
    rw [e1]
    simp [Tank.fire, Tank.runTimers, Tank.fireBody, h2]
  refine ⟨by rw [e1], e2, ?_⟩
  rw [e2, e3]

/-- Witness for C4: concrete times 0 ms, 100 ms (inside the window) and
500 ms (cooldown over) on a fresh tank. -/
theorem Tank.fire_cooldown_witness :
    (Tank.fire 0 ⟨true, 0, none, 0, true⟩).projectiles = 0 + 1 ∧
    Tank.fire 100 (Tank.fire 0 ⟨true, 0, none, 0, true⟩) =
      Tank.fire 0 ⟨true, 0, none, 0, true⟩ ∧
    (Tank.fire 500 (Tank.fire 100 (Tank.fire 0 ⟨true, 0, none, 0, true⟩))).projectiles
      = 0 + 2 := by
  exact Tank.fire_cooldown ⟨true, 0, none, 0, true⟩ 0 100 500 rfl rfl rfl
    (by decide) (by decide)

/-- C7: once `triggerGameOver` has set the game-over flag, any number of
subsequent `PlayState.update` calls (for any input/physics/AI behavior
`external`) leave the state completely unchanged, a state whose flag is set
is returned immediately by `update`, and `render` still draws the same scene
regardless of the flag. -/
theorem PlayState.gameOver_terminal (external : PlayStateM → PlayStateM)
    (s : PlayStateM) (n : ℕ) :
    (PlayState.triggerGameOver s).gameOver = true ∧
    (PlayState.update external)^[n] (PlayState.triggerGameOver s)
      = PlayState.triggerGameOver s ∧
    (s.gameOver = true → PlayState.update external s = s) ∧
    PlayState.render (PlayState.triggerGameOver s) = PlayState.render s := by
  have hfix : ∀ t : PlayStateM, t.gameOver = true → PlayState.update external t = t := by
    intro t ht
    simp [PlayState.update, ht]
  exact ⟨rfl, Function.iterate_fixed (hfix _ rfl) n, hfix s, rfl⟩

/-- Witness for C7: on the sample match, three frozen frames after
`triggerGameOver`, and one direct frozen `update` call. -/
theorem PlayState.gameOver_terminal_witness :
    (PlayState.update id)^[3] (PlayState.triggerGameOver sampleState)
      = PlayState.triggerGameOver sampleState ∧
    PlayState.update id (PlayState.triggerGameOver sampleState)
      = PlayState.triggerGameOver sampleState := by
  refine ⟨(PlayState.gameOver_terminal id sampleState 3).2.1, ?_⟩
  exact (PlayState.gameOver_terminal id (PlayState.triggerGameOver sampleState) 1).2.2.1 rfl

/-- C9: a second `PhysicsWorld.removeBody` call with the same body (tracked
at most once, as every caller registers a body exactly once) leaves the
tracked-bodies list unchanged and does not call `world.removeRigidBody`
again. -/
theorem PhysicsWorld.removeBody_idempotent {α : Type} [DecidableEq α]
    (bodies : List α) (b : α) (h : bodies.count b ≤ 1) :
    PhysicsWorld.removeBody (PhysicsWorld.removeBody bodies b).1 b
      = ((PhysicsWorld.removeBody bodies b).1, false) := by
  by_cases hb : b ∈ bodies
  · have hc : (bodies.erase b).count b = bodies.count b - 1 :=
      List.count_erase_self b bodies
    have hpos : 0 < bodies.count b := List.count_pos_iff.mpr hb
    have hz : (bodies.erase b).count b = 0 := by omega
    have hnot : b ∉ bodies.erase b := by
      simpa using List.count_eq_zero.mp hz
    simp [PhysicsWorld.removeBody, hb, hnot]
  · simp [PhysicsWorld.removeBody, hb]

/-- Witness for C9: removing body `5` from `[5, 7]` twice — the second call
is a no-op and releases nothing. -/
theorem PhysicsWorld.removeBody_idempotent_witness :
    ([5, 7] : List ℕ).count 5 ≤ 1 ∧
    PhysicsWorld.removeBody (PhysicsWorld.removeBody [5, 7] 5).1 5
      = ((PhysicsWorld.removeBody [5, 7] 5).1, false) :=
  ⟨by decide, PhysicsWorld.removeBody_idempotent [5, 7] 5 (by decide)⟩

/-- C2: the per-projectile resolution step never damages the firing side: a
PLAYER-sourced projectile leaves the player record (hence the player's hit
points) untouched, and an ENEMY-sourced projectile leaves the enemies list
(hence every enemy's hit points) untouched. -/
theorem PlayState.projectile_ownership (s : PlayStateM) (p : Proj) :
    (p.source = ProjectileSource.PLAYER →
      (PlayState.stepProjectile s p).1.player = s.player) ∧
    (p.source = ProjectileSource.ENEMY →
      (PlayState.stepProjectile s p).1.enemies = s.enemies) := by
  have hcheck :
      (p.source = ProjectileSource.PLAYER →
        (PlayState.checkProjectileCollisions s p).1.player = s.player) ∧
      (p.source = ProjectileSource.ENEMY →
        (PlayState.checkProjectileCollisions s p).1.enemies = s.enemies) := by
    unfold PlayState.checkProjectileCollisions
    by_cases hins : p.isInstance = false
    · simp [hins]
    · constructor <;> intro hsrc <;> rw [hsrc] <;> simp [hins]
      · cases hfind : PlayState.findHitEnemy p.pos s.enemies with
        | none => simp [hfind]
        | some j => simp [hfind]
      · by_cases hpb : s.player.hasBody = false
        · simp [hpb]
        · by_cases hd : sqDist p.pos s.player.pos < 2 ^ 2 <;> simp [hpb, hd]
  unfold PlayState.stepProjectile
  by_cases hb : p.hasBody = false
  · simp [hb]
  · by_cases hfar : sqNormV p.pos > 1000 ^ 2
    · simp [hb, hfar]
    · simpa [hb, hfar] using hcheck

/-- Witness for C2: a PLAYER projectile right on top of the sample enemy
damages it yet leaves the player record unchanged, and an ENEMY projectile
right on top of the player leaves the enemies list unchanged. -/
theorem PlayState.projectile_ownership_witness :
    (PlayState.stepProjectile sampleState
        ⟨⟨5, 0, 0⟩, ProjectileSource.PLAYER, true, 10, 11, true⟩).1.player
      = sampleState.player ∧
    (PlayState.stepProjectile sampleState
        ⟨⟨0, 0, 0⟩, ProjectileSource.ENEMY, true, 12, 13, true⟩).1.enemies
      = sampleState.enemies :=
  ⟨(PlayState.projectile_ownership sampleState
      ⟨⟨5, 0, 0⟩, ProjectileSource.PLAYER, true, 10, 11, true⟩).1 rfl,
   (PlayState.projectile_ownership sampleState
      ⟨⟨0, 0, 0⟩, ProjectileSource.ENEMY, true, 12, 13, true⟩).2 rfl⟩

/-- `count ≤ 1` means the single occurrence erased by `List.erase` was the
only one. -/
theorem count_le_one_not_mem_erase {α : Type} [DecidableEq α] {a : α} {l : List α}
    (h : l.count a ≤ 1) : a ∉ l.erase a := by
  have hc : (l.erase a).count a = l.count a - 1 := List.count_erase_self a l
  have hz : (l.erase a).count a = 0 := by omega
  simpa using List.count_eq_zero.mp hz

/-- C5: a hit on the enemy at index `j`: when the 10 damage is fatal the
enemy is spliced out of the enemies list, its mesh and body are detached
from scene and physics world, and the score grows by exactly 100; when it
survives it stays (with decremented hit points) and the score is unchanged;
in all cases the score moves monotonically by 0 or exactly 100. -/
theorem PlayState.handleEnemyHit_spec (s : PlayStateM) (j : ℕ) (e : Combatant)
    (hj : s.enemies[j]? = some e) :
    (e.hp - 10 ≤ 0 →
      (PlayState.handleEnemyHit s j).enemies = s.enemies.eraseIdx j ∧
      (PlayState.handleEnemyHit s j).score = s.score + 100 ∧
      (e.hasBody = true → s.physics.count e.bodyId ≤ 1 →
        e.bodyId ∉ (PlayState.handleEnemyHit s j).physics) ∧
      (s.scene.count e.meshId ≤ 1 → e.meshId ∉ (PlayState.handleEnemyHit s j).scene)) ∧
    (0 < e.hp - 10 →
      (PlayState.handleEnemyHit s j).enemies = s.enemies.set j { e with hp := e.hp - 10 } ∧
      (PlayState.handleEnemyHit s j).score = s.score) ∧
    s.score ≤ (PlayState.handleEnemyHit s j).score ∧
    ((PlayState.handleEnemyHit s j).score = s.score ∨
      (PlayState.handleEnemyHit s j).score = s.score + 100) := by
  by_cases halive : 0 < e.hp - 10
  · have hred : PlayState.handleEnemyHit s j =
        { s with enemies := s.enemies.set j { e with hp := e.hp - 10 } } := by
      unfold PlayState.handleEnemyHit
      rw [hj]
      simp [Tank.takeDamage, halive]
    rw [hred]
    exact ⟨fun h => absurd h (by omega), fun _ => ⟨rfl, rfl⟩, le_refl _, Or.inl rfl⟩
  · have hred : PlayState.handleEnemyHit s j =
        { s with
          scene := s.scene.erase e.meshId
          physics := if e.hasBody then (PhysicsWorld.removeBody s.physics e.bodyId).1
            else s.physics
          enemies := s.enemies.eraseIdx j
          score := s.score + 100 } := by
      unfold PlayState.handleEnemyHit
      rw [hj]
      simp [Tank.takeDamage, halive]
    rw [hred]
    refine ⟨fun _ => ⟨rfl, rfl, ?_, ?_⟩, fun h => absurd h halive,
      Nat.le_add_right _ _, Or.inr rfl⟩
    · intro hbody hcount
      rw [hbody]
      simp only [if_true]
      by_cases hmem : e.bodyId ∈ s.physics
      · simpa [PhysicsWorld.removeBody, hmem] using count_le_one_not_mem_erase hcount
      · simp [PhysicsWorld.removeBody, hmem]
    · intro hcount
      exact count_le_one_not_mem_erase hcount

/-- Witness for C5: the sample 10-HP enemy is killed by one hit: removed from
the enemies list, detached from physics (body 3) and the scene (mesh 4), and
worth exactly 100 points. -/
theorem PlayState.handleEnemyHit_spec_witness :
    (PlayState.handleEnemyHit sampleState 0).enemies = [] ∧
    (PlayState.handleEnemyHit sampleState 0).score = 0 + 100 ∧
    (3 : ℕ) ∉ (PlayState.handleEnemyHit sampleState 0).physics ∧
    (4 : ℕ) ∉ (PlayState.handleEnemyHit sampleState 0).scene := by
  have h := PlayState.handleEnemyHit_spec sampleState 0 sampleEnemy rfl
  obtain ⟨ha, hb, hc, hd⟩ := h.1 (by decide)
  refine ⟨?_, ?_, hc rfl (by decide), hd (by decide)⟩
  · rw [ha]; rfl
  · rw [hb]; rfl

/-- C6: a projectile farther than 1000 units from the arena origin is
removed by the resolution pass (its mesh and body detached, its entry not
kept) with no collision check evaluated: the player, the enemies and the
score are exactly as before its step, and the surrounding loop splices it
out while the other entries are processed as usual. -/
theorem PlayState.outOfBounds_projectile_removed (s : PlayStateM) (p : Proj)
    (rest : List Proj) (hb : p.hasBody = true) (hfar : sqNormV p.pos > 1000 ^ 2) :
    PlayState.stepProjectile s p = (PlayState.removeProjectileEffects s p, false) ∧
    (PlayState.stepProjectile s p).1.player = s.player ∧
    (PlayState.stepProjectile s p).1.enemies = s.enemies ∧
    (PlayState.stepProjectile s p).1.score = s.score ∧
    PlayState.updateProjectilesGo s (p :: rest) =
      (PlayState.removeProjectileEffects (PlayState.updateProjectilesGo s rest).1 p,
        (PlayState.updateProjectilesGo s rest).2) := by
  have hstep : ∀ t : PlayStateM,
      PlayState.stepProjectile t p = (PlayState.removeProjectileEffects t p, false) := by
    intro t
    unfold PlayState.stepProjectile
    rw [hb]
    simp [hfar]
  refine ⟨hstep s, ?_, ?_, ?_, ?_⟩
  · rw [hstep s]; rfl
  · rw [hstep s]; rfl
  · rw [hstep s]; rfl
  · simp [PlayState.updateProjectilesGo, hstep]

/-- Witness for C6: a projectile at `(1001, 0, 0)` (distance 1001 from the
origin) is removed by its step with player, enemies and score untouched. -/
theorem PlayState.outOfBounds_projectile_removed_witness :
    sqNormV ⟨1001, 0, 0⟩ > 1000 ^ 2 ∧
    PlayState.stepProjectile sampleState
        ⟨⟨1001, 0, 0⟩, ProjectileSource.PLAYER, true, 10, 11, true⟩
      = (PlayState.removeProjectileEffects sampleState
          ⟨⟨1001, 0, 0⟩, ProjectileSource.PLAYER, true, 10, 11, true⟩, false) ∧
    (PlayState.stepProjectile sampleState
        ⟨⟨1001, 0, 0⟩, ProjectileSource.PLAYER, true, 10, 11, true⟩).1.score
      = sampleState.score := by
  have h := PlayState.outOfBounds_projectile_removed sampleState
    ⟨⟨1001, 0, 0⟩, ProjectileSource.PLAYER, true, 10, 11, true⟩ [] rfl (by norm_num [sqNormV])
  exact ⟨by norm_num [sqNormV], h.1, h.2.2.2.1⟩

/-- C10: an entry of the projectiles list that is not an `instanceof
Projectile` makes `checkProjectileCollisions` return immediately: the state
(player, enemies, score) is untouched and the entry is kept; in the full
per-entry step such an entry can only disappear through the out-of-bounds
rule — in bounds it survives the pass unchanged. -/
theorem PlayState.nonProjectile_entry_skipped (s : PlayStateM) (p : Proj)
    (hnp : p.isInstance = false) :
    PlayState.checkProjectileCollisions s p = (s, true) ∧
    (p.hasBody = true → sqNormV p.pos ≤ 1000 ^ 2 →
      PlayState.stepProjectile s p = (s, true)) ∧
    (p.hasBody = false → PlayState.stepProjectile s p = (s, true)) := by
  have hch : PlayState.checkProjectileCollisions s p = (s, true) := by
    unfold PlayState.checkProjectileCollisions
    simp [hnp]
  refine ⟨hch, ?_, ?_⟩
  · intro hb hin
    unfold PlayState.stepProjectile
    rw [hb]
    simp [not_lt.mpr hin, hch]
  · intro hb
    unfold PlayState.stepProjectile
    rw [hb]
    simp

/-- Witness for C10: a plain (non-`Projectile`) entry sitting within
collision distance of the player is skipped entirely and kept: no damage, no
removal. -/
theorem PlayState.nonProjectile_entry_skipped_witness :
    PlayState.checkProjectileCollisions sampleState
        ⟨⟨1, 0, 0⟩, ProjectileSource.ENEMY, false, 20, 21, true⟩
      = (sampleState, true) ∧
    PlayState.stepProjectile sampleState
        ⟨⟨1, 0, 0⟩, ProjectileSource.ENEMY, false, 20, 21, true⟩
      = (sampleState, true) := by
  have h := PlayState.nonProjectile_entry_skipped sampleState
    ⟨⟨1, 0, 0⟩, ProjectileSource.ENEMY, false, 20, 21, true⟩ rfl
  exact ⟨h.1, h.2.1 rfl (by norm_num [sqNormV])⟩

/-- C8: `EnemyTank.checkAndFireAtPlayer` invokes `fire()` exactly when the
distance to the player is below the firing range (30) and the angular
deviation between the hull-forward direction and the direction to the player
is below π/8; in particular an enemy within range whose deviation is at
least π/8 does not fire. -/
theorem EnemyTank.fire_gate (playerPos tankPos : Vec3R) (meshQuat : QuatR) :
    (EnemyTank.checkAndFireAtPlayer playerPos tankPos meshQuat →
      Vec3R.distanceTo playerPos tankPos < EnemyTank.firingRange ∧
      |EnemyTank.angleToPlayer playerPos tankPos meshQuat| < Real.pi / 8) ∧
    (Vec3R.distanceTo playerPos tankPos < EnemyTank.firingRange →
      Real.pi / 8 ≤ |EnemyTank.angleToPlayer playerPos tankPos meshQuat| →
      ¬ EnemyTank.checkAndFireAtPlayer playerPos tankPos meshQuat) := by
  constructor
  · exact fun h => h
  · intro _ hang h
    exact absurd h.2 (not_lt.mpr hang)

/-- Witness for C8: a tank at the origin with identity hull quaternion
(forward `(0,0,1)`) and the player 5 units straight behind it: in range, but
the angular deviation is π ≥ π/8, so the tank does not fire. -/
theorem EnemyTank.fire_gate_witness :
    Vec3R.distanceTo ⟨0, 0, -5⟩ ⟨0, 0, 0⟩ < EnemyTank.firingRange ∧
    Real.pi / 8 ≤ |EnemyTank.angleToPlayer ⟨0, 0, -5⟩ ⟨0, 0, 0⟩ ⟨0, 0, 0, 1⟩| ∧
    ¬ EnemyTank.checkAndFireAtPlayer ⟨0, 0, -5⟩ ⟨0, 0, 0⟩ ⟨0, 0, 0, 1⟩ := by
  have h25 : Real.sqrt 25 = 5 := by
    rw [show (25 : ℝ) = 5 ^ 2 by norm_num]
    exact Real.sqrt_sq (by norm_num)
  have hd : Vec3R.distanceTo (⟨0, 0, -5⟩ : Vec3R) ⟨0, 0, 0⟩ = 5 := by
    unfold Vec3R.distanceTo Vec3R.length Vec3R.lengthSq Vec3R.dot Vec3R.sub
    norm_num [h25]
  have hfwd : EnemyTank.forwardOf ⟨0, 0, 0, 1⟩ = (⟨0, 0, 1⟩ : Vec3R) := by
    unfold EnemyTank.forwardOf Vec3R.applyQuaternion
    norm_num
  have hnorm : Vec3R.normalize (Vec3R.sub ⟨0, 0, -5⟩ ⟨0, 0, 0⟩) = (⟨0, 0, -1⟩ : Vec3R) := by
    unfold Vec3R.normalize Vec3R.sub Vec3R.length Vec3R.lengthSq Vec3R.dot
    norm_num [h25]
  have hang : EnemyTank.angleToPlayer ⟨0, 0, -5⟩ ⟨0, 0, 0⟩ ⟨0, 0, 0, 1⟩ = Real.pi := by
    unfold EnemyTank.angleToPlayer
    rw [hfwd, hnorm]
    unfold Vec3R.angleTo Vec3R.lengthSq Vec3R.dot
    norm_num [Real.arccos_neg_one]
  have h1 : Vec3R.distanceTo (⟨0, 0, -5⟩ : Vec3R) ⟨0, 0, 0⟩ < EnemyTank.firingRange := by
    rw [hd]
    norm_num [EnemyTank.firingRange]
  have h2 : Real.pi / 8 ≤ |EnemyTank.angleToPlayer ⟨0, 0, -5⟩ ⟨0, 0, 0⟩ ⟨0, 0, 0, 1⟩| := by
    rw [hang, abs_of_pos Real.pi_pos]
    linarith [Real.pi_pos]
  exact ⟨h1, h2, (EnemyTank.fire_gate _ _ _).2 h1 h2⟩

end BZ
